import Mathlib

/-!
Shallow embedding of the migration status and deploy drivers
(`MigrateStatus.parse` and `MigrateDeploy.parse` from
`packages/migrate/src/commands/MigrateDeploy.ts`), starting from the point
where the results of the `diagnoseMigrationHistory` and
`listMigrationDirectories` collaborator calls are in hand.  Command-line
argument handling, schema loading and message colorization are out of scope;
console output is modelled as an ordered event list and the returned (or
thrown) outcome as a sum type carrying exactly the data the source
interpolates into each message template.
-/

/-- The `drift` member of a diagnosis: tagged union with diagnostic
`noDrift` or `driftDetected`, the latter carrying an optional `rollback`
script. -/
inductive DriftReport
  | noDrift
  | driftDetected (rollback : Option String)
  deriving DecidableEq, Repr

/-- The `history` member of a diagnosis: tagged union on `diagnostic`, where
only the `databaseIsBehind` variant carries `unappliedMigrationNames`. -/
inductive HistoryDiagnostic
  | inSync
  | databaseIsBehind (unappliedMigrationNames : List String)
  | historiesDiverge
  deriving DecidableEq, Repr

/-- The `diagnoseMigrationHistory` response consumed by both drivers.  The
`history` and `drift` members are optional in the source (accessed with
optional chaining `?.`), hence `Option` here. -/
structure DiagnoseResult where
  hasMigrationsTable : Bool
  history : Option HistoryDiagnostic
  drift : Option DriftReport
  failedMigrationNames : List String
  editedMigrationNames : List String
  deriving DecidableEq, Repr

/-- JavaScript `a[0]` as interpolated into a template literal: an
out-of-bounds read yields `undefined`, which prints as the string
`undefined`. -/
def jsIndex0 : List String → String
  | [] => "undefined"
  | a :: _ => a

/-- A JavaScript value that is either an array of strings or `undefined`,
interpolated into a template literal: an array is joined with commas,
`undefined` prints as the string `undefined`. -/
def jsShowOptList : Option (List String) → String
  | none => "undefined"
  | some l => String.intercalate "," l

/-- An optional string interpolated into a template literal: `undefined`
prints as the string `undefined`. -/
def jsShowOptString : Option String → String
  | none => "undefined"
  | some s => s

/-- JavaScript truthiness of an optional string: `undefined` and the empty
string are falsy, every other string is truthy. -/
def jsTruthy : Option String → Bool
  | none => false
  | some s => s != ""

/-- The check `diagnoseResult.history?.diagnostic === 'databaseIsBehind'`. -/
def isBehind : Option HistoryDiagnostic → Bool
  | some (HistoryDiagnostic.databaseIsBehind _) => true
  | _ => false

/-- The check `diagnoseResult.history?.diagnostic === 'historiesDiverge'`. -/
def isDiverge : Option HistoryDiagnostic → Bool
  | some HistoryDiagnostic.historiesDiverge => true
  | _ => false

/-- The check `diagnoseResult.drift?.diagnostic === 'driftDetected'`. -/
def isDriftDetected : Option DriftReport → Bool
  | some (DriftReport.driftDetected _) => true
  | _ => false

/-- The member read `history.unappliedMigrationNames`: present only on the
`databaseIsBehind` variant, `undefined` on any other shape. -/
def unappliedField : Option HistoryDiagnostic → Option (List String)
  | some (HistoryDiagnostic.databaseIsBehind l) => some l
  | _ => none

/-- The member read `drift.rollback`: present only on the `driftDetected`
variant, `undefined` on any other shape. -/
def rollbackField : Option DriftReport → Option String
  | some (DriftReport.driftDetected r) => r
  | _ => none

/-- Console output of `MigrateStatus.parse`, in emission order. -/
inductive StatusEvent
  | statusHeader
  | migrationsFoundInfo (count : Nat)
  | noMigrationFoundInfo
  | unappliedNotice (unappliedMigrationNames : List String)
  | failedNotice (failedMigrationNames : List String)
  | rollbackScriptInfo (script : String)
  | emptyLineInfo
  deriving DecidableEq, Repr

/-- The value returned, or the exception raised, by `MigrateStatus.parse`,
carrying the data interpolated into each message template: the baseline
message names one `migrationId`, the failed-migration message embeds an
argument into both the `resolve --rolledback` and the `resolve --applied`
suggestions, and the drift message embeds a rollback script and the argument
of its `resolve --applied` suggestion. -/
inductive StatusOutcome
  | threwHowToBaselineError
  | returnedBaseline (migrationId : String)
  | returnedFailedAdvice (rolledbackArg : String) (appliedArg : String)
  | returnedDriftAdvice (rollbackScript : String) (appliedArg : String)
  | returnedUpToDate
  deriving DecidableEq, Repr

/-- Modelled from the spec: the content of `HowToBaselineError` is declared
in `../utils/errors`, which is not part of the visible source.  Per the
spec's decision table, the baseline-impossible outcome instructs
re-introspection and proposes no automated resolve command. -/
structure BaselinePlanShape where
  suggestsResolveCommand : Bool
  instructsReintrospection : Bool
  deriving DecidableEq, Repr

/-- Modelled from the spec: the plan conveyed by `HowToBaselineError`. -/
def howToBaselineError : BaselinePlanShape :=
  { suggestsResolveCommand := false, instructsReintrospection := true }

namespace MigrateStatus

/-- The console output emitted by `MigrateStatus.parse` before the primary
branch dispatch: the `Status` header, the migration-count line, and — when
`history?.diagnostic === 'databaseIsBehind'` — the notice listing
`unappliedMigrationNames` with the suggested dev/deploy commands. -/
def preBranchInfo (diagnoseResult : DiagnoseResult) (migrations : List String) :
    List StatusEvent :=
  StatusEvent.statusHeader ::
    (if migrations.length > 0 then [StatusEvent.migrationsFoundInfo migrations.length]
     else [StatusEvent.noMigrationFoundInfo]) ++
    (match diagnoseResult.history with
     | some (HistoryDiagnostic.databaseIsBehind unappliedMigrations) =>
         [StatusEvent.unappliedNotice unappliedMigrations]
     | _ => [])

/-- `MigrateStatus.parse`, from the point where `diagnoseResult` and
`listMigrationDirectoriesResult.migrations` are available.  Mirrors the
source's branch structure: first the unconditional pre-branch output, then
`if (!hasMigrationsTable)` (throwing `HowToBaselineError` on an empty
migrations directory, else naming `migrations.shift()`), `else if
(failedMigrationNames.length > 0)` (naming `failedMigrations[0]` in both
resolve suggestions), `else if` drift is detected and the history diagnostic
is `databaseIsBehind` or `historiesDiverge` (embedding
`history.unappliedMigrationNames` itself as the `resolve --applied`
argument), else the up-to-date report. -/
def parse (diagnoseResult : DiagnoseResult) (migrations : List String) :
    List StatusEvent × StatusOutcome :=
  let pre := preBranchInfo diagnoseResult migrations
  if !diagnoseResult.hasMigrationsTable then
    if migrations.length = 0 then
      (pre, StatusOutcome.threwHowToBaselineError)
    else
      (pre, StatusOutcome.returnedBaseline (jsIndex0 migrations))
  else if diagnoseResult.failedMigrationNames.length > 0 then
    let failedMigrations := diagnoseResult.failedMigrationNames
    let rollbackEvents :=
      if isDriftDetected diagnoseResult.drift &&
          jsTruthy (rollbackField diagnoseResult.drift) then
        [StatusEvent.rollbackScriptInfo (jsShowOptString (rollbackField diagnoseResult.drift))]
      else []
    (pre ++ [StatusEvent.failedNotice failedMigrations] ++ rollbackEvents,
     StatusOutcome.returnedFailedAdvice (jsIndex0 failedMigrations) (jsIndex0 failedMigrations))
  else if isDriftDetected diagnoseResult.drift &&
      (isBehind diagnoseResult.history || isDiverge diagnoseResult.history) then
    let migrationId := unappliedField diagnoseResult.history
    (pre, StatusOutcome.returnedDriftAdvice
      (jsShowOptString (rollbackField diagnoseResult.drift))
      (jsShowOptList migrationId))
  else
    (pre ++ [StatusEvent.emptyLineInfo], StatusOutcome.returnedUpToDate)

end MigrateStatus

/-- Console output and collaborator calls of `MigrateDeploy.parse`, in
order. -/
inductive DeployEvent
  | emptyLineInfo
  | migrationsFoundInfo (count : Nat)
  | noMigrationFoundInfo
  | editedWarning (editedMigrationNames : List String)
  | rpcApplyMigrations
  deriving DecidableEq, Repr

/-- The value returned by `MigrateDeploy.parse`: either the no-pending
message or the applied-migrations message listing `migrationIds`. -/
inductive DeployResult
  | noPendingMessage
  | appliedMessage (migrationIds : List String)
  deriving DecidableEq, Repr

namespace MigrateDeploy

/-- `MigrateDeploy.parse`, from the point where `diagnoseResult` and
`listMigrationDirectoriesResult.migrations` are available.
`appliedMigrationNames` is the response of the `applyMigrations`
collaborator call, which the source performs unconditionally after printing
the migration count and the edited-migrations warning; an empty response is
reported as the no-pending message, a non-empty one as the applied list. -/
def parse (diagnoseResult : DiagnoseResult) (migrations : List String)
    (appliedMigrationNames : List String) : List DeployEvent × DeployResult :=
  let events := DeployEvent.emptyLineInfo ::
    (if migrations.length > 0 then [DeployEvent.migrationsFoundInfo migrations.length]
     else [DeployEvent.noMigrationFoundInfo]) ++
    (if diagnoseResult.editedMigrationNames.length > 0 then
      [DeployEvent.editedWarning diagnoseResult.editedMigrationNames]
     else []) ++
    [DeployEvent.rpcApplyMigrations, DeployEvent.emptyLineInfo]
  if appliedMigrationNames.length = 0 then
    (events, DeployResult.noPendingMessage)
  else
    (events, DeployResult.appliedMessage appliedMigrationNames)

end MigrateDeploy

/-- Strict lexicographic order on character lists, the order in which
timestamp-prefixed migration identifiers sort chronologically. -/
def charListLt : List Char → List Char → Bool
  | [], [] => false
  | [], _ :: _ => true
  | _ :: _, [] => false
  | a :: as, b :: bs => if a < b then true else if b < a then false else charListLt as bs

/-- Strict chronological (lexicographic) order on migration identifiers. -/
def idLt (a b : String) : Bool :=
  charListLt a.data b.data

/-- The smaller of two identifiers in chronological order. -/
def idMin (a b : String) : String :=
  if idLt b a then b else a

/-- From the spec's words, for comparison with the source's behaviour: the
chronologically earliest entry of a list of timestamp-prefixed migration
identifiers, i.e. its minimum in identifier order. -/
def chronologicallyEarliest : List String → Option String
  | [] => none
  | a :: l => some (l.foldl idMin a)

/-- From the spec's words: a list of identifiers is in chronological order
when no later entry sorts strictly before an earlier one. -/
def chronologicallyOrdered (l : List String) : Prop :=
  List.Pairwise (fun p q => idLt q p = false) l

instance (l : List String) : Decidable (chronologicallyOrdered l) :=
  List.instDecidablePairwise l

/-- Folding `idMin` over a list none of whose elements sorts strictly
before `a` leaves `a`. -/
theorem foldl_idMin_eq_head (a : String) (l : List String)
    (h : ∀ b ∈ l, idLt b a = false) : l.foldl idMin a = a := by
  induction l generalizing a with
  | nil => rfl
  | cons b t ih =>
      have hb : idMin a b = a := by
        simp [idMin, h b (List.mem_cons_self b t)]
      calc (b :: t).foldl idMin a = t.foldl idMin (idMin a b) := rfl
        _ = t.foldl idMin a := by rw [hb]
        _ = a := ih a (fun c hc => h c (List.mem_cons_of_mem b hc))

/-- Every event of the pre-branch output is among the events of
`MigrateStatus.parse`, whichever primary branch is taken. -/
theorem MigrateStatus.mem_parse_fst_of_mem_pre (d : DiagnoseResult)
    (migrations : List String) (e : StatusEvent)
    (h : e ∈ MigrateStatus.preBranchInfo d migrations) :
    e ∈ (MigrateStatus.parse d migrations).1 := by
  simp only [MigrateStatus.parse]
  split
  · split
    · exact h
    · exact h
  · split
    · exact List.mem_append_left _ (List.mem_append_left _ h)
    · split
      · exact h
      · exact List.mem_append_left _ h

/-- C1: the status driver's primary branches are dispatched
no-migrations-table first: for every DiagnoseResult with
`hasMigrationsTable = false` and non-empty `failedMigrationNames`, the
no-migrations-table branch (throwing `HowToBaselineError` on an empty local
directory, proposing a baseline otherwise) determines the result, never the
failed-migrations branch. -/
theorem C1_no_table_branch_beats_failed (d : DiagnoseResult) (migrations : List String)
    (ht : d.hasMigrationsTable = false) (hf : d.failedMigrationNames ≠ []) :
    (MigrateStatus.parse d migrations).2 =
      (if migrations.length = 0 then StatusOutcome.threwHowToBaselineError
       else StatusOutcome.returnedBaseline (jsIndex0 migrations)) ∧
    ∀ r a, (MigrateStatus.parse d migrations).2 ≠ StatusOutcome.returnedFailedAdvice r a := by
  constructor
  · simp only [MigrateStatus.parse, ht, Bool.not_false, if_true]
    split <;> rfl
  · intro r a
    simp only [MigrateStatus.parse, ht, Bool.not_false, if_true]
    split <;> simp

/-- C1 witness: at `hasMigrationsTable = false`, one failed migration and an
empty local directory, the baseline branch decides the outcome. -/
theorem C1_no_table_branch_beats_failed_witness :
    (MigrateStatus.parse ⟨false, none, none, ["20201231_z"], []⟩ []).2 =
      StatusOutcome.threwHowToBaselineError := by
  simpa using
    (C1_no_table_branch_beats_failed ⟨false, none, none, ["20201231_z"], []⟩ []
      rfl (by simp)).1

/-- C2 counterexample: with `failedMigrationNames` passed newest-first as
`["20210102_b", "20210101_a"]`, both resolve suggestions name
`20210102_b` — the head of the list as given — while the chronologically
earliest failed migration is `20210101_a`. -/
theorem C2_input_order_counterexample :
    (MigrateStatus.parse ⟨true, none, none, ["20210102_b", "20210101_a"], []⟩ []).2 =
      StatusOutcome.returnedFailedAdvice "20210102_b" "20210102_b" ∧
    chronologicallyEarliest ["20210102_b", "20210101_a"] = some "20210101_a" ∧
    ("20210102_b" : String) ≠ "20210101_a" :=
  ⟨by decide, by decide, by decide⟩

/-- C2 (amended): for every DiagnoseResult with `hasMigrationsTable = true`
and non-empty `failedMigrationNames`, both the `resolve --rolledback` and
the `resolve --applied` suggestions name the first element of
`failedMigrationNames` in the order the list was passed; when the list is in
chronological order — as the diagnoser's contract guarantees — that element
is the chronologically earliest failed migration.  The driver itself does
not sort, so for arbitrary input order the earliest is not selected. -/
theorem C2_head_of_failed_named (d : DiagnoseResult) (migrations : List String)
    (x : String) (rest : List String)
    (ht : d.hasMigrationsTable = true)
    (hf : d.failedMigrationNames = x :: rest)
    (hs : chronologicallyOrdered d.failedMigrationNames) :
    (MigrateStatus.parse d migrations).2 = StatusOutcome.returnedFailedAdvice x x ∧
    chronologicallyEarliest d.failedMigrationNames = some x := by
  constructor
  · simp [MigrateStatus.parse, ht, hf, jsIndex0]
  · rw [hf] at hs ⊢
    simp only [chronologicallyEarliest, Option.some.injEq]
    exact foldl_idMin_eq_head x rest (List.pairwise_cons.mp hs).1

/-- C2 witness: at a chronologically ordered two-element failed list, the
head is named and is the earliest. -/
theorem C2_head_of_failed_named_witness :
    (MigrateStatus.parse ⟨true, none, none, ["20210101_a", "20210102_b"], []⟩ []).2 =
      StatusOutcome.returnedFailedAdvice "20210101_a" "20210101_a" :=
  (C2_head_of_failed_named ⟨true, none, none, ["20210101_a", "20210102_b"], []⟩ []
    "20210101_a" ["20210102_b"] rfl rfl (by decide)).1

/-- C3: for every DiagnoseResult with `hasMigrationsTable = false` and a
non-empty local migration directory, the status driver proposes baselining
exactly the first (oldest) entry of the ordered directory listing via
`resolve --applied`. -/
theorem C3_baseline_names_oldest (d : DiagnoseResult) (m : String) (rest : List String)
    (ht : d.hasMigrationsTable = false) :
    (MigrateStatus.parse d (m :: rest)).2 = StatusOutcome.returnedBaseline m := by
  simp [MigrateStatus.parse, ht, jsIndex0]

/-- C3 witness: with two local migrations, the older one is proposed. -/
theorem C3_baseline_names_oldest_witness :
    (MigrateStatus.parse ⟨false, none, none, [], []⟩
        ["20210101_x", "20210102_y"]).2 =
      StatusOutcome.returnedBaseline "20210101_x" :=
  C3_baseline_names_oldest ⟨false, none, none, [], []⟩ "20210101_x" ["20210102_y"] rfl

/-- C4: for every DiagnoseResult with `hasMigrationsTable = false` and an
empty local migration directory, the status driver produces the
baseline-impossible outcome: it raises `HowToBaselineError`, which (modelled
from the spec) suggests no resolve command and instructs re-introspection. -/
theorem C4_baseline_impossible (d : DiagnoseResult)
    (ht : d.hasMigrationsTable = false) :
    (MigrateStatus.parse d []).2 = StatusOutcome.threwHowToBaselineError ∧
    howToBaselineError.suggestsResolveCommand = false ∧
    howToBaselineError.instructsReintrospection = true := by
  refine ⟨?_, rfl, rfl⟩
  simp [MigrateStatus.parse, ht]

/-- C4 witness: concrete no-table diagnosis with an empty directory. -/
theorem C4_baseline_impossible_witness :
    (MigrateStatus.parse ⟨false, none, none, [], []⟩ []).2 =
      StatusOutcome.threwHowToBaselineError :=
  (C4_baseline_impossible ⟨false, none, none, [], []⟩ rfl).1

/-- C5: the code evaluated at the failing input.  With drift detected and
`history = databaseIsBehind ["20210101_a", "20210102_b"]`, the driver binds
`migrationId` to the whole `unappliedMigrationNames` array and interpolates
it, so the `resolve --applied` suggestion embeds the comma-joined list
`20210101_a,20210102_b` rather than the first identifier alone. -/
theorem C5_drift_advice_embeds_whole_list :
    (MigrateStatus.parse
        ⟨true, some (HistoryDiagnostic.databaseIsBehind ["20210101_a", "20210102_b"]),
         some (DriftReport.driftDetected (some "drop-script")), [], []⟩ []).2 =
      StatusOutcome.returnedDriftAdvice "drop-script" "20210101_a,20210102_b" ∧
    ("20210101_a,20210102_b" : String) ≠ "20210101_a" :=
  ⟨by decide, by decide⟩

/-- C6 counterexample: a DiagnoseResult with `history = inSync` and
`drift = noDrift` but `hasMigrationsTable = false` is dispatched to the
baseline branch, not to the up-to-date report. -/
theorem C6_in_sync_counterexample :
    (MigrateStatus.parse
        ⟨false, some HistoryDiagnostic.inSync, some DriftReport.noDrift, [], []⟩
        ["20210101_x"]).2 = StatusOutcome.returnedBaseline "20210101_x" ∧
    StatusOutcome.returnedBaseline "20210101_x" ≠ StatusOutcome.returnedUpToDate :=
  ⟨by decide, by decide⟩

/-- C6 (amended): for every DiagnoseResult with `hasMigrationsTable = true`,
no failed migrations, `history = inSync` and `drift = noDrift`, the status
driver returns the no-action up-to-date report; and the deploy driver
reports an empty `appliedMigrationNames` response as the no-pending
message, never as an error.  (The missing-table and failed-migrations
branches take precedence, so those two extra conditions are required.) -/
theorem C6_up_to_date_noop (d : DiagnoseResult) (migrations : List String)
    (ht : d.hasMigrationsTable = true)
    (hf : d.failedMigrationNames = [])
    (hh : d.history = some HistoryDiagnostic.inSync)
    (hd : d.drift = some DriftReport.noDrift) :
    (MigrateStatus.parse d migrations).2 = StatusOutcome.returnedUpToDate ∧
    ∀ d2 : DiagnoseResult, ∀ m2 : List String,
      (MigrateDeploy.parse d2 m2 []).2 = DeployResult.noPendingMessage := by
  constructor
  · simp [MigrateStatus.parse, ht, hf, hd, isDriftDetected]
  · intro d2 m2
    simp [MigrateDeploy.parse]

/-- C6 witness: concrete in-sync diagnosis and an empty apply response. -/
theorem C6_up_to_date_noop_witness :
    (MigrateStatus.parse
        ⟨true, some HistoryDiagnostic.inSync, some DriftReport.noDrift, [], []⟩ []).2 =
      StatusOutcome.returnedUpToDate ∧
    (MigrateDeploy.parse
        ⟨true, some HistoryDiagnostic.inSync, some DriftReport.noDrift, [], []⟩ [] []).2 =
      DeployResult.noPendingMessage := by
  have h := C6_up_to_date_noop
    ⟨true, some HistoryDiagnostic.inSync, some DriftReport.noDrift, [], []⟩ []
    rfl rfl rfl rfl
  exact ⟨h.1, h.2 _ _⟩

/-- C7 counterexample: with failed migrations, diverged histories and
detected drift in the diagnosis, the deploy driver still reaches the
`applyMigrations` collaborator call and returns an ordinary message instead
of failing. -/
theorem C7_no_gating_counterexample :
    DeployEvent.rpcApplyMigrations ∈
      (MigrateDeploy.parse
        ⟨true, some HistoryDiagnostic.historiesDiverge,
         some (DriftReport.driftDetected none), ["20210101_a"], []⟩
        ["20210101_a"] []).1 ∧
    (MigrateDeploy.parse
        ⟨true, some HistoryDiagnostic.historiesDiverge,
         some (DriftReport.driftDetected none), ["20210101_a"], []⟩
        ["20210101_a"] []).2 = DeployResult.noPendingMessage :=
  ⟨by decide, by decide⟩

/-- C7 (amended): the deploy driver performs no diagnosis gating — for every
DiagnoseResult, in every diagnostic state (failed migrations, drift and
diverged histories included), execution reaches the `applyMigrations`
collaborator call; the driver never fails before it.  Enforcement of the
apply precondition, if any, lies inside the collaborator. -/
theorem C7_apply_always_reached (d : DiagnoseResult)
    (migrations applied : List String) :
    DeployEvent.rpcApplyMigrations ∈ (MigrateDeploy.parse d migrations applied).1 := by
  simp only [MigrateDeploy.parse]
  split <;> · simp

/-- C8 counterexample: for the well-formed DiagnoseResult with
`hasMigrationsTable = false` and zero local migrations, the status driver's
advice computation raises `HowToBaselineError` instead of returning a
plan. -/
theorem C8_advice_throws_counterexample :
    (MigrateStatus.parse ⟨false, none, none, [], []⟩ []).2 =
      StatusOutcome.threwHowToBaselineError := by decide

/-- C8 (amended): the status driver's advice computation is total except in
the single case `hasMigrationsTable = false` with zero local migrations,
where it raises `HowToBaselineError`; for every other DiagnoseResult it
returns a plan value without raising. -/
theorem C8_total_except_empty_baseline (d : DiagnoseResult) (migrations : List String)
    (h : d.hasMigrationsTable = false → migrations ≠ []) :
    (MigrateStatus.parse d migrations).2 ≠ StatusOutcome.threwHowToBaselineError := by
  cases htb : d.hasMigrationsTable with
  | false =>
      cases hm : migrations with
      | nil => exact absurd hm (h htb)
      | cons m rest => simp [MigrateStatus.parse, htb]
  | true =>
      by_cases hfl : d.failedMigrationNames.length > 0
      · simp [MigrateStatus.parse, htb, hfl]
      · by_cases hdr : (isDriftDetected d.drift &&
            (isBehind d.history || isDiverge d.history)) = true
        · simp [MigrateStatus.parse, htb, hfl, hdr]
        · simp [MigrateStatus.parse, htb, hfl, hdr]

/-- C8 witness: a no-table diagnosis with a non-empty directory returns
rather than raises. -/
theorem C8_total_except_empty_baseline_witness :
    (MigrateStatus.parse ⟨false, none, none, [], []⟩ ["20210101_x"]).2 ≠
      StatusOutcome.threwHowToBaselineError :=
  C8_total_except_empty_baseline ⟨false, none, none, [], []⟩ ["20210101_x"]
    (fun _ => by simp)

/-- C9: for every DiagnoseResult with non-empty `editedMigrationNames`, the
deploy driver surfaces a warning listing exactly those identifiers, and the
`applyMigrations` call is still made after it, whatever the rest of the
diagnosis says. -/
theorem C9_edited_warning_then_apply (d : DiagnoseResult)
    (migrations applied : List String)
    (h : d.editedMigrationNames ≠ []) :
    List.Sublist
      [DeployEvent.editedWarning d.editedMigrationNames, DeployEvent.rpcApplyMigrations]
      (MigrateDeploy.parse d migrations applied).1 := by
  have hlen : d.editedMigrationNames.length > 0 := List.length_pos.mpr h
  simp only [MigrateDeploy.parse, hlen, if_pos]
  split <;> · split <;> · simp

/-- C9 witness: one edited migration, empty directory and apply response. -/
theorem C9_edited_warning_then_apply_witness :
    List.Sublist
      [DeployEvent.editedWarning ["20210101_e"], DeployEvent.rpcApplyMigrations]
      (MigrateDeploy.parse ⟨true, none, none, [], ["20210101_e"]⟩ [] []).1 := by
  simpa using
    C9_edited_warning_then_apply ⟨true, none, none, [], ["20210101_e"]⟩ [] []
      (by simp)

/-- C10: whenever `history?.diagnostic` is `databaseIsBehind`, the status
driver emits the notice listing `unappliedMigrationNames` unconditionally,
before the primary branch dispatch — also when the missing migrations table
or failed migrations determine the returned message. -/
theorem C10_behind_notice_unconditional (d : DiagnoseResult)
    (migrations unapplied : List String)
    (h : d.history = some (HistoryDiagnostic.databaseIsBehind unapplied)) :
    StatusEvent.unappliedNotice unapplied ∈ (MigrateStatus.parse d migrations).1 := by
  apply MigrateStatus.mem_parse_fst_of_mem_pre
  simp only [MigrateStatus.preBranchInfo, h]
  exact List.mem_cons_of_mem _ (List.mem_append_right _ (List.mem_singleton.mpr rfl))

/-- C10 witness: the notice is emitted even when the missing migrations
table and a failed migration decide the final message. -/
theorem C10_behind_notice_unconditional_witness :
    StatusEvent.unappliedNotice ["20210102_m"] ∈
      (MigrateStatus.parse
        ⟨false, some (HistoryDiagnostic.databaseIsBehind ["20210102_m"]),
         none, ["20210101_f"], []⟩ []).1 :=
  C10_behind_notice_unconditional _ _ _ rfl
